import Mathlib

/-!
Verification development for the AppDaemon home-automation configuration
(load scheduling, electricity prices, and the phase-balancer rewrite, PBR).

The Python sources under `apps/` are shallowly embedded below: Python floats
become exact rationals (`ℚ`), Python strings become `String` (or `List Char`
where character-level processing matters), mutation becomes explicit state
passing, and a raised exception becomes an `Except`/`Option` failure.
Python's stable `sorted` is modelled by `List.insertionSort`, which is also
stable, so both compute the same list.

The core `Rat` operations are marked `@[irreducible]` upstream, which blocks
kernel evaluation of concrete rational arithmetic; the attribute line below
restores the definitional transparency they have in the kernel anyway.
-/

set_option allowUnsafeReducibility true

attribute [semireducible] Rat.mul Rat.add Rat.sub Rat.neg Rat.div Rat.inv

namespace HAConf

/-! ## Python primitives

Helpers mirroring the Python builtins used by the sources. -/

/-- Python `int(x)` for floats: truncation toward zero. -/
def pyTrunc (q : ℚ) : ℤ := q.num.tdiv (q.den : ℤ)

/-- Floor of a rational, written so it evaluates in the kernel. -/
def ratFloor (q : ℚ) : ℤ := q.num.fdiv (q.den : ℤ)

/-- Python `round(x)` (round half to even). -/
def pyRound (q : ℚ) : ℤ :=
  let f := ratFloor q
  let frac := q - (f : ℚ)
  if frac < 1/2 then f
  else if (1/2 : ℚ) < frac then f + 1
  else if f % 2 = 0 then f else f + 1

/-! ## `loads_prices.py` — `PriceSlot` and `LoadsPriceManager` -/

/-- `PriceSlot`: a single 15-minute price slot (timestamp omitted; the code
under verification only reads the fields kept here). -/
structure PriceSlot where
  spotPrice : ℚ
  networkFee : ℚ
  totalPrice : ℚ
  slotIndex : ℕ
  hour : ℕ
  alwaysOn : Bool := false
  alwaysOff : Bool := false
deriving Repr, DecidableEq

/-- `VAT_RATE = 1.24`. -/
def VAT_RATE : ℚ := 124/100

/-- `RENEWABLE_ENERGY_FEE = 0.0084`. -/
def RENEWABLE_ENERGY_FEE : ℚ := 84/10000

/-- `ELECTRICITY_EXCISE = 0.0021`. -/
def ELECTRICITY_EXCISE : ℚ := 21/10000

/-- `BALANCING_FEE = 0.00373`. -/
def BALANCING_FEE : ℚ := 373/100000

/-- `SECURITY_FEE = 0.00758`. -/
def SECURITY_FEE : ℚ := 758/100000

/-- `SELLER_MARGIN = 0.00413 / 1.24`. -/
def SELLER_MARGIN : ℚ := (413/100000) / (124/100)

/-- `LoadsPriceManager._calc_network_fee`, as a function of the tariff inputs
`(provider, package, month, hour, weekday)` (the `spot` argument of the Python
method is never read).  `weekday` follows Python: `0 = Monday … 6 = Sunday`. -/
def calcNetworkFee (networkProvider pkg : String) (month hour weekday : ℕ) : ℚ :=
  let isWinter : Bool := month ∈ [11, 12, 1, 2, 3]
  let isWorkday : Bool := weekday < 5
  let isWeekend : Bool := !isWorkday
  if networkProvider = "elektrilevi" then
    if pkg = "vork1" then 772/10000
    else if pkg = "vork2" then
      if hour < 7 ∨ hour ≥ 22 ∨ isWeekend then 351/10000 else 607/10000
    else if pkg = "vork4" then
      if hour < 7 ∨ hour ≥ 22 ∨ isWeekend then 210/10000 else 369/10000
    else if pkg = "vork5" then
      if isWinter ∧ isWeekend ∧ 16 ≤ hour ∧ hour < 20 then 474/10000
      else if isWinter ∧ isWorkday ∧ ((9 ≤ hour ∧ hour < 12) ∨ (16 ≤ hour ∧ hour < 20)) then 818/10000
      else if hour < 7 ∨ hour ≥ 22 ∨ isWeekend then 303/10000
      else 529/10000
    else 772/10000
  else if networkProvider = "imatra" then
    let isSummer : Bool := month ∈ [3, 4, 5, 6, 7, 8, 9]
    if pkg = "partn24" then 607/10000
    else if pkg = "partn24pl" then 386/10000
    else if pkg = "partn12" then
      if isSummer then
        if hour < 8 ∨ isWeekend then 420/10000 else 724/10000
      else
        if hour < 7 ∨ hour ≥ 23 ∨ isWeekend then 420/10000 else 724/10000
    else if pkg = "partn12pl" then
      if isSummer then
        if hour < 8 ∨ isWeekend then 271/10000 else 464/10000
      else
        if hour < 7 ∨ hour ≥ 23 ∨ isWeekend then 271/10000 else 464/10000
    else 607/10000
  else if networkProvider = "latvia" then
    if pkg = "pamata1" then 3962/100000
    else if pkg = "special1" then 15848/100000
    else 3962/100000
  else 0

/-- `LoadsPriceManager._get_fallback_prices`, as a function of the target
date's `(month, weekday)` (the timestamp only feeds `_calc_network_fee`).
Note that the code uses `base_price = 50.0` (EUR/MWh) without the `/ 1000`
conversion the fetch path applies. -/
def getFallbackPrices (networkProvider pkg : String) (month weekday : ℕ) : List PriceSlot :=
  let basePrice : ℚ := 50
  (List.range 96).map fun slotIdx =>
    let hour := slotIdx / 4
    let spot : ℚ := if 7 ≤ hour ∧ hour < 22 then basePrice * (13/10) else basePrice * (7/10)
    let network := calcNetworkFee networkProvider pkg month hour weekday
    let spotWithFees := spot + RENEWABLE_ENERGY_FEE + ELECTRICITY_EXCISE + BALANCING_FEE
      + SECURITY_FEE + SELLER_MARGIN
    let spotWithVat := spotWithFees * VAT_RATE
    let networkWithVat := network * VAT_RATE
    { spotPrice := spotWithVat
      networkFee := networkWithVat
      totalPrice := spotWithVat + networkWithVat
      slotIndex := slotIdx
      hour := hour }

/-- The `if min_rank and rank < min_rank: continue` test: Python truthiness
means a `min_rank` of `None` **or `0`** never skips anything. -/
def skipByMinRank (minRank : Option ℤ) (rank : ℚ) : Bool :=
  match minRank with
  | some m => m != 0 && decide (rank < (m : ℚ))
  | none => false

/-- The `if max_rank and rank > max_rank: continue` test (same truthiness). -/
def skipByMaxRank (maxRank : Option ℤ) (rank : ℚ) : Bool :=
  match maxRank with
  | some m => m != 0 && decide (rank > (m : ℚ))
  | none => false

/-- The rank-filtering `for` loop of `get_cheapest_slots`: `i` is the position
in the sorted list, `len` its (fixed) length, `rank = (i / len) * 100`.
`mkRat` is exact division; the loop only ever runs with `0 < len`. -/
def rankFilterLoop (minRank maxRank : Option ℤ) (len : ℕ) :
    ℕ → List (ℕ × PriceSlot) → List (ℕ × PriceSlot)
  | _, [] => []
  | i, x :: xs =>
    let rank : ℚ := (mkRat i len) * 100
    if skipByMinRank minRank rank then rankFilterLoop minRank maxRank len (i + 1) xs
    else if skipByMaxRank maxRank rank then rankFilterLoop minRank maxRank len (i + 1) xs
    else x :: rankFilterLoop minRank maxRank len (i + 1) xs

/-- `LoadsPriceManager.get_cheapest_slots`.  Python's `sorted` is stable;
`List.insertionSort` is the stable sort used to model it. -/
def getCheapestSlots (prices : List PriceSlot) (numSlots : ℕ)
    (minRank maxRank : Option ℤ) : List ℕ :=
  let indexedPrices := prices.enum
  let sortedIndexed := indexedPrices.insertionSort fun x y => x.2.totalPrice ≤ y.2.totalPrice
  let afterFilter :=
    if minRank.isSome ∨ maxRank.isSome then
      rankFilterLoop minRank maxRank sortedIndexed.length 0 sortedIndexed
    else sortedIndexed
  (afterFilter.take numSlots).map Prod.fst

/-- The spec's description of `get_cheapest_slots` (stable sort with original
indices, percentile rank `100·i/len`, keep ranks in `[min_rank, max_rank]`,
first `n` input-relative indices), amended so that a bound that is absent
**or zero** disables that side of the filter. -/
def getCheapestSlotsSpec (prices : List PriceSlot) (numSlots : ℕ)
    (minRank maxRank : Option ℤ) : List ℕ :=
  let sortedIndexed := prices.enum.insertionSort fun x y => x.2.totalPrice ≤ y.2.totalPrice
  let kept := (sortedIndexed.enum.filter fun p =>
    let rank : ℚ := (mkRat p.1 sortedIndexed.length) * 100
    !skipByMinRank minRank rank && !skipByMaxRank maxRank rank).map Prod.snd
  ((kept.take numSlots).map Prod.fst)

/-! ## `loads_config.py` — hour-range parsing

Python strings are modelled as `List Char`; `str.split`, `str.strip` and
`int` (on unsigned decimal tokens, the only shape these configs use) are
translated below.  A Python `ValueError` becomes `none`. -/

/-- Whitespace as stripped by `str.strip()` (the subset that can occur in
these config strings). -/
def isPyWhitespace (c : Char) : Bool := c = ' ' ∨ c = '\t' ∨ c = '\n' ∨ c = '\r'

/-- Python `s.split(sep)` for a one-character separator. -/
def splitOnChar (sep : Char) : List Char → List (List Char)
  | [] => [[]]
  | c :: cs =>
    let rest := splitOnChar sep cs
    if c = sep then [] :: rest
    else
      match rest with
      | r :: rs => (c :: r) :: rs
      | [] => [[c]]

/-- Python `s.strip()`. -/
def stripChars (s : List Char) : List Char :=
  ((s.dropWhile isPyWhitespace).reverse.dropWhile isPyWhitespace).reverse

/-- A single decimal digit, or `none`. -/
def charDigit (c : Char) : Option ℕ :=
  if '0' ≤ c ∧ c ≤ '9' then some (c.toNat - '0'.toNat) else none

/-- Python `int(s)` on the tokens occurring here: a nonempty digit string.
Anything else raises `ValueError`, i.e. `none`. -/
def digitsToNat (cs : List Char) : Option ℕ :=
  match cs with
  | [] => none
  | _ => cs.foldl (fun acc c => do
      let a ← acc
      let d ← charDigit c
      pure (a * 10 + d)) (some 0)

/-- Python `sorted(set(hours))`: the sorted list of distinct elements. -/
def sortedDedupNat (l : List ℕ) : List ℕ := (l.insertionSort (· ≤ ·)).dedup

/-- One comma-separated token of `LoadDevice._parse_hour_ranges`: either a
range `"a-b"` (`range(a, b)`, end excluded) or a bare number. -/
def parseHourToken (tok : List Char) : Option (List ℕ) :=
  let t := stripChars tok
  if t.contains '-' then
    match splitOnChar '-' t with
    | [a, b] => do
      let x ← digitsToNat a
      let y ← digitsToNat b
      pure (List.range' x (y - x))
    | _ => none
  else (digitsToNat t).map fun n => [n]

/-- `LoadDevice._parse_hour_ranges`: `None` or the empty string give `[]`;
otherwise split on commas, parse each token, and return the deduplicated
sorted union. -/
def parseHourRanges (hourString : Option (List Char)) : Option (List ℕ) :=
  match hourString with
  | none => some []
  | some [] => some []
  | some s => do
    let lists ← (splitOnChar ',' s).mapM parseHourToken
    pure (sortedDedupNat lists.flatten)

/-! ## `loads_scheduler.py` — per-device schedule calculation (PERIOD mode) -/

/-- The scheduling-relevant configuration of a `LoadDevice` (PERIOD mode). -/
structure LoadDevice where
  desiredOnHours : Option ℕ
  periodHours : ℕ
  minPriceRank : Option ℤ
  maxPriceRank : Option ℤ
  weatherAdjustment : Bool
  alwaysOnHours : Option (List Char)
  alwaysOffHours : Option (List Char)
  alwaysOnPrice : Option ℚ

/-- Whether a slot index is one of the four 15-minute slots of calendar hour
`h`; the slot offset of `h` is `((h - 22) mod 24) * 4` (slot 0 = 22:00). -/
def slotOfHour (hours : List ℕ) (idx : ℕ) : Bool :=
  hours.any fun h =>
    let off := ((((h : ℤ) - 22) % 24).toNat) * 4
    off ≤ idx && idx < off + 4

/-- `LoadsScheduler._apply_slot_constraints`: the first loop sets `always_on`
on every slot of an `always_on_hours` hour; the second sets `always_off` and
clears `always_on` on every slot of an `always_off_hours` hour. -/
def applySlotConstraints (onHours offHours : List ℕ) (prices : List PriceSlot) :
    List PriceSlot :=
  prices.enum.map fun p =>
    let inOn := slotOfHour onHours p.1
    let inOff := slotOfHour offHours p.1
    { p.2 with
      alwaysOn := if inOff then false else (p.2.alwaysOn || inOn)
      alwaysOff := p.2.alwaysOff || inOff }

/-- The `always_on_price` pass of `_calc_device_schedule`: every slot with
`total_price·100 < always_on_price` that is not `always_off` is marked
`always_on`. -/
def applyPriceConstraint (alwaysOnPrice : Option ℚ) (prices : List PriceSlot) :
    List PriceSlot :=
  match alwaysOnPrice with
  | none => prices
  | some p => prices.map fun s =>
      if s.totalPrice * 100 < p ∧ ¬s.alwaysOff then { s with alwaysOn := true } else s

/-- Python truthiness of `num_slots_per_period : Optional[int]`:
`None` and `0` are falsy. -/
def optNatTruthy (o : Option ℕ) : Bool := o.getD 0 != 0

/-- The per-period selection loop of the PERIOD branch of
`_calc_device_schedule` (indices written into `slots` come from each slot's
`slot_index` field, which is `< 96` for a day's prices). -/
def periodSelectionLoop (dev : LoadDevice) (devicePrices : List PriceSlot)
    (numSlotsPerPeriod numPeriods slotsPerPeriod : ℕ) (slots : List Bool) : List Bool :=
  (List.range numPeriods).foldl (fun sl periodIdx =>
    let periodStart := periodIdx * slotsPerPeriod
    let periodPrices := (List.range' periodStart slotsPerPeriod).filterMap fun idx =>
      match devicePrices.get? idx with
      | some p => if p.alwaysOff then none else some p
      | none => none
    let alreadyOn := ((sl.drop periodStart).take slotsPerPeriod).count true
    let remainingSlots :=
      if dev.weatherAdjustment then numSlotsPerPeriod - alreadyOn else numSlotsPerPeriod
    if remainingSlots > 0 ∧ periodPrices.length > 0 then
      let cheapest := getCheapestSlots periodPrices remainingSlots dev.minPriceRank dev.maxPriceRank
      cheapest.foldl (fun sl2 rel =>
        if rel < periodPrices.length then
          match periodPrices.get? rel with
          | some p => sl2.set p.slotIndex true
          | none => sl2
        else sl2) sl
    else sl) slots

/-- `LoadsScheduler._calc_device_schedule`, PERIOD branch.  `weatherReq`
stands for the value `self.weather.get_heating_requirement(...)` returns when
weather adjustment is on (an external HTTP-backed query).  A Python
`ValueError` from hour parsing is `none`. -/
def calcDeviceSchedule (dev : LoadDevice) (weatherReq : ℕ) (prices : List PriceSlot) :
    Option (List Bool) := do
  let onHours ← parseHourRanges dev.alwaysOnHours
  let offHours ← parseHourRanges dev.alwaysOffHours
  let devicePrices :=
    applyPriceConstraint dev.alwaysOnPrice (applySlotConstraints onHours offHours prices)
  let slots : List Bool := List.replicate 96 false
  let numSlotsPerPeriod : Option ℕ :=
    if dev.weatherAdjustment ∧ dev.desiredOnHours.isSome then some weatherReq else none
  let numSlotsPerPeriod : Option ℕ :=
    if ¬ optNatTruthy numSlotsPerPeriod ∧ dev.desiredOnHours.isSome then
      some (dev.desiredOnHours.getD 0 * 4)
    else numSlotsPerPeriod
  if optNatTruthy numSlotsPerPeriod then
    let n := numSlotsPerPeriod.getD 0
    let numPeriods := if dev.periodHours > 0 then 24 / dev.periodHours else 1
    let slotsPerPeriod := if numPeriods > 0 then 96 / numPeriods else 96
    let slots := devicePrices.enum.foldl
      (fun sl p => if p.2.alwaysOn then sl.set p.1 true else sl) slots
    pure (periodSelectionLoop dev devicePrices n numPeriods slotsPerPeriod slots)
  else
    pure slots

/-! ## `loads.py` — energy-debt tracking (`_check_energy_debt`) -/

/-- One minute tick of `_check_energy_debt` for one device: scheduled-ON and
actually OFF accrues a minute of debt, clamped at `max_energy_debt`;
scheduled-OFF and actually ON pays one minute back, floored at 0. -/
def debtStep (maxDebt debt : ℕ) (scheduledOn actualOn : Bool) : ℕ :=
  if scheduledOn ∧ ¬ actualOn then
    if debt + 1 > maxDebt then maxDebt else debt + 1
  else if ¬ scheduledOn ∧ actualOn then
    if debt > 0 then debt - 1 else debt
  else debt

/-- A run of minute ticks, each observing `(scheduled_on, actual_on)`. -/
def debtRun (maxDebt debt : ℕ) (ticks : List (Bool × Bool)) : ℕ :=
  ticks.foldl (fun d t => debtStep maxDebt d t.1 t.2) debt

/-- Minutes a run adds to debt (scheduled ON, actual OFF ticks). -/
def debtAdds (ticks : List (Bool × Bool)) : ℕ :=
  (ticks.filter fun t => t.1 && !t.2).length

/-- Minutes a run subtracts from debt (scheduled OFF, actual ON ticks). -/
def debtSubs (ticks : List (Bool × Bool)) : ℕ :=
  (ticks.filter fun t => !t.1 && t.2).length

/-- Neither clamp binds anywhere along the run: every accrual happens below
`max_energy_debt` and every payback happens above 0. -/
def debtClampFree (maxDebt : ℕ) : ℕ → List (Bool × Bool) → Bool
  | _, [] => true
  | d, t :: ts =>
    (!(t.1 && !t.2) || decide (d + 1 ≤ maxDebt)) &&
    (!(!t.1 && t.2) || decide (0 < d)) &&
    debtClampFree maxDebt (debtStep maxDebt d t.1 t.2) ts

/-! ## `pbr_config.py` — the PBR constants used below -/

/-- `max_battery_power = 5000` (an `int` in the config). -/
def maxBatteryPower : ℤ := 5000

/-- `max_feed_grid_power = 8800`. -/
def maxFeedGridPower : ℤ := 8800

/-- `battery_soc_minimum_for_discharging = 6.0`. -/
def batterySocMinimumForDischarging : ℚ := 6

/-- `forced_charge_discharge_cooldown = 5.0` seconds. -/
def forcedChargeDischargeCooldown : ℚ := 5

/-- `charging_adjustment_cooldown = 3.0` seconds. -/
def chargingAdjustmentCooldown : ℚ := 3

/-- `export_limit_cooldown = 3.0` seconds. -/
def exportLimitCooldown : ℚ := 3

/-- `minimum_charging_adjustment_watts = 10.0`. -/
def minimumChargingAdjustmentWatts : ℚ := 10

/-- `minimum_export_limit_change_watts = 200.0`. -/
def minimumExportLimitChangeWatts : ℚ := 200

/-- `minimum_discharge_change_watts = 10.0`. -/
def minimumDischargeChangeWatts : ℚ := 10

/-- `minimum_discharge_reduction_watts = 10.0`. -/
def minimumDischargeReductionWatts : ℚ := 10

/-! ## `pbr.py` / `pbr_modes.py` / `pbr_tools.py` — system state, actions,
tool handlers, the proposed-action walk, and heating protection -/

/-- The fields of the orchestrator's `system_state` dictionary read by the
code under verification. -/
structure SystemState where
  batterySoc : ℚ
  batteryPower : ℚ
  solarInput : ℚ
  chargingRateLimit : ℚ
  dischargingRateLimit : ℚ
  forcedPowerFlow : ℚ
  heatingActive : Bool
  boilerActive : Bool
deriving Repr, DecidableEq

/-- The closed sum of actuator actions from `pbr_actions.py` (the `reason`
strings carry no behaviour and are omitted). -/
inductive PAction where
  | chargingAdjustment (targetRate : ℤ)
  | dischargeLimitation (targetLimit : ℤ)
  | forcedCharging (targetPower : ℤ)
  | forcedDischarging (targetPower : ℤ)
  | exportLimitation (targetLimit : ℤ)
  | loadSwitching (loads : List String) (turnOn : Bool)
deriving Repr, DecidableEq

/-- `is_forced_power_realized` (`pbr_tools.py`): with no active forced
command the check passes; otherwise the observed battery power must be within
`max(200, |commanded| · (1 − 0.85))` of the command. -/
def isForcedPowerRealized (forcedPowerFlow batteryPower : ℚ) : Bool :=
  if forcedPowerFlow = 0 then true
  else
    let tolerance := max 200 (|forcedPowerFlow| * (1 - 85/100))
    decide (|batteryPower - forcedPowerFlow| ≤ tolerance)

/-- `PhaseBalancerRewrite._handle_charging_adjustment` (the `pv_headroom`
argument is computed by the caller but never read). -/
def handleChargingAdjustment (s : SystemState) (flow pvHeadroom : ℚ) (mode : String) :
    Option (Option PAction × ℚ) :=
  let currentChargeLimit := s.chargingRateLimit
  let currentForcedFlow := s.forcedPowerFlow
  if mode = "frrdown" ∧ flow < 0 then
    if currentChargeLimit < (maxBatteryPower : ℚ) then
      some (some (.chargingAdjustment maxBatteryPower), flow)
    else some (none, flow)
  else if flow > 0 then
    if currentForcedFlow < 0 then some (none, flow)
    else
      let increaseAmount := min flow ((maxBatteryPower : ℚ) - currentChargeLimit)
      if increaseAmount ≥ minimumChargingAdjustmentWatts then
        some (some (.chargingAdjustment (pyTrunc (currentChargeLimit + increaseAmount))),
          flow - increaseAmount)
      else some (none, flow)
  else if flow < 0 then
    let energyDeficit := |flow|
    let currentBatteryPower := s.batteryPower
    let nr :=
      if currentBatteryPower < 0 then ((0 : ℚ), energyDeficit)
      else if currentBatteryPower > 0 then
        (max 0 (currentBatteryPower - energyDeficit),
         energyDeficit - min currentBatteryPower energyDeficit)
      else
        (max 0 (currentChargeLimit - energyDeficit),
         energyDeficit - min currentChargeLimit energyDeficit)
    if |nr.1 - currentChargeLimit| ≥ minimumChargingAdjustmentWatts then
      some (some (.chargingAdjustment (pyTrunc nr.1)), if nr.2 > 0 then -nr.2 else 0)
    else some (none, flow)
  else none

/-- `PhaseBalancerRewrite._handle_forced_discharging`. -/
def handleForcedDischarging (s : SystemState) (flow : ℚ) (mode : String) :
    Option (Option PAction × ℚ) :=
  if s.batterySoc ≤ batterySocMinimumForDischarging then none
  else
    let currentForcedFlow := s.forcedPowerFlow
    let currentDischarge := max 0 (-currentForcedFlow)
    let dischargingLimit := s.dischargingRateLimit
    if mode = "buy" ∨ mode = "sell" then
      let targetPower := |flow|
      if |currentDischarge - targetPower| < minimumDischargeChangeWatts then some (none, 0)
      else some (some (.forcedDischarging (pyTrunc targetPower)), 0)
    else if flow > 0 then
      if currentDischarge > 0 then
        let reduction := min flow currentDischarge
        if reduction ≥ minimumDischargeReductionWatts ∨ reduction = currentDischarge then
          some (some (.forcedDischarging (pyTrunc (currentDischarge - reduction))),
            flow - reduction)
        else some (none, flow)
      else some (none, flow)
    else if flow < 0 then
      if currentDischarge > 0 ∧ ¬ isForcedPowerRealized s.forcedPowerFlow s.batteryPower then
        some (none, flow)
      else
        let maxAdditional := min ((maxBatteryPower : ℚ) - currentDischarge)
          (dischargingLimit - currentDischarge)
        let increaseAmount := min |flow| maxAdditional
        if increaseAmount ≥ minimumDischargeChangeWatts then
          some (some (.forcedDischarging (pyTrunc (currentDischarge + increaseAmount))),
            flow + increaseAmount)
        else some (none, flow)
    else none

/-- `PhaseBalancerRewrite._handle_forced_charging`. -/
def handleForcedCharging (s : SystemState) (flow : ℚ) (mode : String) :
    Option (Option PAction × ℚ) :=
  let currentCharging := max 0 s.forcedPowerFlow
  if mode = "buy" ∨ mode = "sell" then
    let targetPower := |flow|
    if |currentCharging - targetPower| < minimumChargingAdjustmentWatts then some (none, 0)
    else some (some (.forcedCharging (pyTrunc targetPower)), 0)
  else if flow > 0 then
    if currentCharging > 0 then
      let reduction := min flow currentCharging
      if reduction ≥ minimumChargingAdjustmentWatts then
        some (some (.forcedCharging (pyTrunc (currentCharging - reduction))), flow - reduction)
      else some (none, flow)
    else some (none, flow)
  else if flow < 0 then
    let maxAdditional := (maxBatteryPower : ℚ) - currentCharging
    let increaseAmount := min |flow| maxAdditional
    if increaseAmount ≥ minimumChargingAdjustmentWatts then
      some (some (.forcedCharging (pyTrunc (currentCharging + increaseAmount))),
        flow + increaseAmount)
    else some (none, flow)
  else none

/-- `PhaseBalancerRewrite._handle_export_limitation`: surplus in
`limitexport` mode only; returns a bare action (no remaining). -/
def handleExportLimitation (flow : ℚ) (mode : String) : Option PAction :=
  if flow > 0 ∧ mode = "limitexport" then some (.exportLimitation 0) else none

/-- `PhaseBalancerRewrite._handle_discharge_limitation`. -/
def handleDischargeLimitation (s : SystemState) (flow : ℚ) :
    Option (Option PAction × ℚ) :=
  let currentDischargeLimit := s.dischargingRateLimit
  let currentBatteryPower := s.batteryPower
  let currentDischarge := max 0 (-currentBatteryPower)
  if flow > 0 then
    let reductionNeeded := flow
    let newLimit := max 0 (currentDischarge - reductionNeeded)
    if |newLimit - currentDischargeLimit| ≥ minimumChargingAdjustmentWatts then
      let limitReduction := currentDischargeLimit - newLimit
      let effectiveHelp := min (min limitReduction reductionNeeded) currentDischarge
      some (some (.dischargeLimitation (pyTrunc newLimit)), flow - effectiveHelp)
    else some (none, flow)
  else if flow < 0 then
    let increaseAmount := min |flow| ((maxBatteryPower : ℚ) - currentDischargeLimit)
    if increaseAmount ≥ minimumChargingAdjustmentWatts then
      some (some (.dischargeLimitation (pyTrunc (currentDischargeLimit + increaseAmount))),
        flow + increaseAmount)
    else some (none, flow)
  else none

/-- The shape of `tools['load_switching'].get_proposed_action(flow, mode, …)`
as consumed by the walk: an optional load-switching payload plus a remaining
value.  The repository's `LoadSwitchingTool` class defines no method of this
name, so the walk is parameterised over the handler. -/
def LswHandler : Type := ℚ → Option (List String × Bool) × ℚ

/-- Modelled from the spec: the load-switching tool's proposal
(`get_proposed_action` has no implementation in `pbr_load_switching_tool.py`;
the spec's §4.6 load-switching description is used).  For `frrdown` with a
positive delta it greedily turns ON currently-OFF enabled devices sorted by
`estimated_power` descending until the need is covered; `frrup` with a
negative delta symmetrically turns OFF currently-ON devices.  With no device
selected there is no action.  Each device is `(name, estimated_power, is_on)`. -/
def specLoadSwitching (devices : List (String × ℚ × Bool)) (mode : String) : LswHandler :=
  fun flow =>
    if mode = "frrdown" ∧ flow > 0 then
      let candidates := (devices.filter fun d => !d.2.2).insertionSort
        fun a b => b.2.1 ≤ a.2.1
      let picked := candidates.foldl
        (fun (acc : List String × ℚ) d =>
          if acc.2 ≥ flow then acc else (acc.1 ++ [d.1], acc.2 + d.2.1))
        ([], 0)
      if picked.1 = [] then (none, flow)
      else (some (picked.1, true), flow - picked.2)
    else if mode = "frrup" ∧ flow < 0 then
      let candidates := (devices.filter fun d => d.2.2).insertionSort
        fun a b => b.2.1 ≤ a.2.1
      let picked := candidates.foldl
        (fun (acc : List String × ℚ) d =>
          if acc.2 ≥ -flow then acc else (acc.1 ++ [d.1], acc.2 + d.2.1))
        ([], 0)
      if picked.1 = [] then (none, flow)
      else (some (picked.1, false), flow + picked.2)
    else (none, flow)

/-- The tool-dispatch loop of `calculate_proposed_actions`, over the tool
sequence, threading the remaining `battery_flow_change`, the accumulated
action list, and the Python local `remaining_from_tool` (which is only bound
by the `load_switching` branch; reading it unbound raises `NameError`, the
`Except.error` case). -/
def walkTools (lsw : LswHandler) (s : SystemState) (mode : String) (pvHeadroom : ℚ) :
    List String → ℚ → List PAction → Option ℚ → Except String (List PAction)
  | [], _, actions, _ => .ok actions
  | toolName :: rest, flow, actions, remFromTool =>
    if |flow| < 1 then .ok actions
    else if toolName = "charging_adjustment" then
      match handleChargingAdjustment s flow pvHeadroom mode with
      | some (a, r) => walkTools lsw s mode pvHeadroom rest r (actions ++ a.toList) remFromTool
      | none => walkTools lsw s mode pvHeadroom rest flow actions remFromTool
    else if toolName = "forced_charging" then
      match handleForcedCharging s flow mode with
      | some (a, r) => walkTools lsw s mode pvHeadroom rest r (actions ++ a.toList) remFromTool
      | none => walkTools lsw s mode pvHeadroom rest flow actions remFromTool
    else if toolName = "forced_discharging" then
      match handleForcedDischarging s flow mode with
      | some (a, r) => walkTools lsw s mode pvHeadroom rest r (actions ++ a.toList) remFromTool
      | none => walkTools lsw s mode pvHeadroom rest flow actions remFromTool
    else if toolName = "export_limitation" then
      match handleExportLimitation flow mode with
      | some a => walkTools lsw s mode pvHeadroom rest 0 (actions ++ [a]) remFromTool
      | none => walkTools lsw s mode pvHeadroom rest flow actions remFromTool
    else if toolName = "discharge_limitation" then
      match handleDischargeLimitation s flow with
      | some (a, _) =>
        match remFromTool with
        | none => .error "NameError: name remaining_from_tool is not defined"
        | some v => walkTools lsw s mode pvHeadroom rest v (actions ++ a.toList) remFromTool
      | none => walkTools lsw s mode pvHeadroom rest flow actions remFromTool
    else if toolName = "load_switching" then
      match lsw flow with
      | (some payload, r) =>
        walkTools lsw s mode pvHeadroom rest r
          (actions ++ [.loadSwitching payload.1 payload.2]) (some r)
      | (none, _) => walkTools lsw s mode pvHeadroom rest flow actions remFromTool
    else walkTools lsw s mode pvHeadroom rest flow actions remFromTool

/-- `PhaseBalancerRewrite.calculate_proposed_actions`: negate the desired
`battery_flow_change` for `frrdown`, compute the (unused) PV headroom, and
walk the tool sequence once. -/
def calculateProposedActions (lsw : LswHandler) (s : SystemState)
    (batteryFlowChange : ℚ) (toolSequence : List String) (mode : String) :
    Except String (List PAction) :=
  let flow := if mode = "frrdown" then -batteryFlowChange else batteryFlowChange
  let pvAvailable := s.solarInput
  let currentCharging := max 0 s.batteryPower
  let pvHeadroom := pvAvailable - currentCharging
  walkTools lsw s mode pvHeadroom toolSequence flow [] none

/-- The actions the orchestrator actually hands to the executor: an exception
inside `calculate_proposed_actions` is caught by the control loop's
`except` clause, so no action at all is executed. -/
def executedActions : Except String (List PAction) → List PAction
  | .ok l => l
  | .error _ => []

/-- `ModeManager.mode_tool_sequences` (with the dictionary's
`.get` default). -/
def modeToolSequence (mode : String) : List String :=
  if mode = "normal" then ["charging_adjustment", "forced_discharging"]
  else if mode = "limitexport" then
    ["charging_adjustment", "export_limitation", "forced_discharging"]
  else if mode = "pvsell" then ["charging_adjustment", "forced_discharging"]
  else if mode = "nobattery" then ["forced_discharging", "charging_adjustment"]
  else if mode = "savebattery" then ["charging_adjustment", "forced_discharging"]
  else if mode = "buy" then ["forced_charging"]
  else if mode = "sell" then ["forced_discharging"]
  else if mode = "frrup" then ["load_switching", "charging_adjustment", "forced_discharging"]
  else if mode = "frrdown" then
    ["load_switching", "discharge_limitation", "charging_adjustment", "forced_charging"]
  else ["charging_adjustment", "forced_discharging"]

/-- `ModeManager.get_tool_sequence`: the base sequence, reversed for
surplus. -/
def getToolSequence (mode : String) (surplus : Bool) : List String :=
  if surplus then (modeToolSequence mode).reverse else modeToolSequence mode

/-- The nine modes of `mode_tool_sequences`; `determine_current_mode`
validates the sensor mode against this set before any balancing runs. -/
def validModes : List String :=
  ["normal", "limitexport", "pvsell", "nobattery", "savebattery", "buy", "sell",
   "frrup", "frrdown"]

/-- The control loop's surplus orientation (orchestrator step 10). -/
def surplusState (mode : String) (batteryFlowChange : ℚ) : Bool :=
  if mode = "frrdown" ∨ mode = "frrup" then
    (mode = "frrup" ∧ batteryFlowChange > 0) ∨ (mode = "frrdown" ∧ batteryFlowChange < 0)
  else batteryFlowChange > 0

/-- What `_apply_heating_protection` did in a cycle: whether balancing is
skipped, the discharge-limit-to-0 action it executed (if any), whether it
stopped an active forced discharge, and the locally updated `system_state`. -/
structure HeatingProtectionResult where
  skip : Bool
  dischargeLimitAction : Option PAction
  stoppedForcedDischarge : Bool
  newState : SystemState
deriving Repr, DecidableEq

/-- The first mode list of `_apply_heating_protection` (protection applied,
balancing continues). -/
def chargeAllowedModes : List String :=
  ["buy", "frrdown", "frrup", "savebattery", "nobattery", "normal"]

/-- The second mode list of `_apply_heating_protection` (protection applied,
balancing skipped). -/
def enforceSkipModes : List String :=
  ["normal", "limitexport", "pvsell", "nobattery", "savebattery", "sell", "frrup"]

/-- `PhaseBalancerRewrite._apply_heating_protection`. -/
def applyHeatingProtection (s : SystemState) (mode : String) : HeatingProtectionResult :=
  if ¬ s.heatingActive then ⟨false, none, false, s⟩
  else if mode ∈ chargeAllowedModes then
    let act := if s.dischargingRateLimit > 0 then some (PAction.dischargeLimitation 0) else none
    let stopped := s.forcedPowerFlow < 0
    let s1 := if s.forcedPowerFlow < 0 then { s with forcedPowerFlow := 0 } else s
    ⟨false, act, stopped, { s1 with dischargingRateLimit := 0 }⟩
  else if mode ∈ enforceSkipModes then
    let act := if s.dischargingRateLimit > 0 then some (PAction.dischargeLimitation 0) else none
    ⟨true, act, s.forcedPowerFlow < 0, s⟩
  else ⟨false, none, false, s⟩

/-! ## `pbr_tools.py` — tool `execute` methods as pure functions

Each `execute` is a function of the target value and the observations the
method reads (parsed current power, switch status, limits, the wall clock and
the tool's `last_command_time`); its effect is the list of service calls it
issues and the new `last_command_time`. -/

/-- The outcome of one tool `execute`/`stop` call. -/
structure ToolResult where
  serviceCalls : List String
  lastCommandTime : ℚ
  executed : Bool
deriving Repr, DecidableEq

/-- `ForcedChargingTool.stop` / `ForcedDischargingTool.stop` (textually
identical): inside the cooldown nothing happens, otherwise the stop service
is called. -/
def forcedStopExecute (now lastCommandTime : ℚ) : ToolResult :=
  if now - lastCommandTime < forcedChargeDischargeCooldown then
    ⟨[], lastCommandTime, false⟩
  else ⟨["huawei_solar/stop_forcible_charge"], now, true⟩

/-- `ForcedChargingTool.execute`.  `currentPower` is the parsed
`get_current_forced_power` value and `isCharging` the
`_is_forced_charging()` status. -/
def forcedChargingExecute (targetPower : ℚ) (modeTransition : Bool)
    (systemForcedFlow systemBatteryPower : ℚ) (currentPower : ℤ) (isCharging : Bool)
    (currentChargeLimit : ℚ) (now lastCommandTime : ℚ) : ToolResult :=
  if ¬ modeTransition ∧ ¬ isForcedPowerRealized systemForcedFlow systemBatteryPower then
    ⟨[], lastCommandTime, false⟩
  else
    let t0 : ℤ := pyRound targetPower
    let t : ℤ := if t0 > maxBatteryPower then maxBatteryPower else if t0 < 0 then 0 else t0
    if t = 0 then forcedStopExecute now lastCommandTime
    else if isCharging ∧ currentPower = t then ⟨[], lastCommandTime, false⟩
    else if now - lastCommandTime < forcedChargeDischargeCooldown ∧ ¬ modeTransition ∧
        isCharging then ⟨[], lastCommandTime, false⟩
    else
      let limitCalls := if currentChargeLimit < (t : ℚ) then ["number/set_value"] else []
      ⟨limitCalls ++ ["huawei_solar/forcible_charge_soc"], now, true⟩

/-- The realization/counter gate at the top of
`ForcedDischargingTool.execute`: `proceed` is whether execution continues
past the gate, `count` the updated `not_realized_count`. -/
structure FdGateResult where
  proceed : Bool
  count : ℕ
deriving Repr, DecidableEq

/-- The gate: realization resets the counter; otherwise (outside mode
transitions) the counter increments and the call is blocked while the counter
is below 3 and there is no emergency. -/
def forcedDischargingGate (notRealizedCount : ℕ) (realized emergency modeTransition : Bool) :
    FdGateResult :=
  if realized then ⟨true, 0⟩
  else if modeTransition then ⟨true, notRealizedCount⟩
  else
    let c := notRealizedCount + 1
    if c < 3 ∧ ¬ emergency then ⟨false, c⟩ else ⟨true, c⟩

/-- `ForcedDischargingTool.execute`.  `currentPowerAbs` is
`abs(get_current_forced_power(...))` and `isDischarging` the
`_is_forced_discharging()` status; the second component is the updated
`not_realized_count`. -/
def forcedDischargingExecute (targetPower : ℚ) (emergency modeTransition : Bool)
    (systemForcedFlow systemBatteryPower : ℚ) (notRealizedCount : ℕ)
    (currentPowerAbs : ℤ) (isDischarging : Bool)
    (currentDischargeLimit : ℚ) (now lastCommandTime : ℚ) : ToolResult × ℕ :=
  let g := forcedDischargingGate notRealizedCount
    (isForcedPowerRealized systemForcedFlow systemBatteryPower) emergency modeTransition
  if ¬ g.proceed then (⟨[], lastCommandTime, false⟩, g.count)
  else
    let t0 : ℤ := pyRound targetPower
    let t : ℤ := if t0 > maxBatteryPower then maxBatteryPower else if t0 < 0 then 0 else t0
    if t = 0 then (forcedStopExecute now lastCommandTime, g.count)
    else if isDischarging ∧ currentPowerAbs = t then ((⟨[], lastCommandTime, false⟩ : ToolResult), g.count)
    else if now - lastCommandTime < forcedChargeDischargeCooldown ∧ ¬ modeTransition ∧
        isDischarging ∧ ¬ emergency then ((⟨[], lastCommandTime, false⟩ : ToolResult), g.count)
    else
      let limitCalls := if currentDischargeLimit < (t : ℚ) then ["number/set_value"] else []
      ((⟨limitCalls ++ ["huawei_solar/forcible_discharge_soc"], now, true⟩ : ToolResult), g.count)

/-- `ChargingAdjustmentTool.execute`. -/
def chargingAdjustmentExecute (targetRate currentRate now lastCommandTime : ℚ) : ToolResult :=
  let t0 : ℤ := pyRound targetRate
  let t : ℤ := if t0 > maxBatteryPower then maxBatteryPower else if t0 < 0 then 0 else t0
  let change : ℚ := |(t : ℚ) - currentRate|
  if change < minimumChargingAdjustmentWatts then ⟨[], lastCommandTime, false⟩
  else if currentRate = (t : ℚ) then ⟨[], lastCommandTime, false⟩
  else if now - lastCommandTime < chargingAdjustmentCooldown then ⟨[], lastCommandTime, false⟩
  else ⟨["number/set_value"], now, true⟩

/-- `DischargeLimitationTool.execute`. -/
def dischargeLimitationExecute (targetRate currentLimit now lastCommandTime : ℚ) : ToolResult :=
  let t0 : ℤ := pyRound targetRate
  let t : ℤ := if t0 > maxBatteryPower then maxBatteryPower else if t0 < 0 then 0 else t0
  let change : ℚ := |(t : ℚ) - currentLimit|
  if change < minimumChargingAdjustmentWatts then ⟨[], lastCommandTime, false⟩
  else if now - lastCommandTime < chargingAdjustmentCooldown then ⟨[], lastCommandTime, false⟩
  else ⟨["number/set_value"], now, true⟩

/-- `ExportLimitationTool.execute`.  `currentMode` is the parsed
`_get_current_export_limit` mode (`"limited"`, `"unlimited"`, `"zero"` or
`"unknown"`). -/
def exportLimitationExecute (targetLimit currentLimit : ℚ) (currentMode : String)
    (now lastCommandTime : ℚ) : ToolResult :=
  let t0 : ℤ := pyRound targetLimit
  let t : ℤ := if t0 > maxFeedGridPower then maxFeedGridPower else if t0 < 0 then 0 else t0
  if currentMode = "unlimited" ∧ (t : ℚ) ≥ (maxFeedGridPower : ℚ) then ⟨[], lastCommandTime, false⟩
  else if currentMode = "limited" ∧ currentLimit = (t : ℚ) then ⟨[], lastCommandTime, false⟩
  else if currentMode = "limited" ∧ (t : ℚ) < (maxFeedGridPower : ℚ) ∧
      |(t : ℚ) - currentLimit| < minimumExportLimitChangeWatts then ⟨[], lastCommandTime, false⟩
  else if now - lastCommandTime < exportLimitCooldown then ⟨[], lastCommandTime, false⟩
  else if (t : ℚ) ≥ (maxFeedGridPower : ℚ) then
    ⟨["huawei_solar/reset_maximum_feed_grid_power"], now, true⟩
  else ⟨["huawei_solar/set_maximum_feed_grid_power"], now, true⟩

/-! ## Predicates and concrete instances used by the theorems -/

/-- Whether an action is a forced-discharge command. -/
def PAction.isForcedDischarge : PAction → Bool
  | .forcedDischarging _ => true
  | _ => false

/-- A concrete system state for the `frrdown` walk: battery discharging at
3000 W, both limits at maximum, no forced command active, ample SOC. -/
def frrdownExampleState : SystemState :=
  { batterySoc := 50, batteryPower := -3000, solarInput := 0, chargingRateLimit := 5000,
    dischargingRateLimit := 5000, forcedPowerFlow := 0, heatingActive := false,
    boilerActive := false }

/-- A concrete heating-protection state: heating ON while the battery
force-discharges at 1000 W with the discharge limit at maximum. -/
def heatingExampleState : SystemState :=
  { batterySoc := 50, batteryPower := -1000, solarInput := 0, chargingRateLimit := 5000,
    dischargingRateLimit := 5000, forcedPowerFlow := -1000, heatingActive := true,
    boilerActive := false }

/-- Two price slots with totals 1 and 2 EUR/kWh, for the rank-filter
boundary. -/
def rankExampleSlots : List PriceSlot :=
  [{ spotPrice := 0, networkFee := 0, totalPrice := 1, slotIndex := 0, hour := 0 },
   { spotPrice := 0, networkFee := 0, totalPrice := 2, slotIndex := 1, hour := 0 }]

/-- The EP90-style device of the repository's own configuration, with the
weather-independent requirement degenerated to 0 hours:
`desired_on_hours = 0`, `period_hours = 24`, `always_on_price = 7.0`. -/
def zeroHoursDevice : LoadDevice :=
  { desiredOnHours := some 0, periodHours := 24, minPriceRank := none, maxPriceRank := none,
    weatherAdjustment := false, alwaysOnHours := none, alwaysOffHours := none,
    alwaysOnPrice := some 7 }

/-- A 96-slot price day where slot 5 costs 5 c/kWh (below the 7 c threshold)
and every other slot 10 c/kWh. -/
def cheapSlotPrices : List PriceSlot := (List.range 96).map fun i =>
  { spotPrice := 0, networkFee := 0, totalPrice := if i = 5 then 5/100 else 1/10,
    slotIndex := i, hour := i / 4 }

/-- The sum of the five fixed per-kWh fee components. -/
def feeSum : ℚ :=
  RENEWABLE_ENERGY_FEE + ELECTRICITY_EXCISE + BALANCING_FEE + SECURITY_FEE + SELLER_MARGIN

/-! ## Theorems -/

/-- C1: the orchestrator's walk of the `frrdown` tool sequence does **not**
complete normally once `discharge_limitation` produces an action: the branch
reads the local `remaining_from_tool`, which only the (later) `load_switching`
branch binds, so the walk raises `NameError`.  Concretely: `frrdown` with
`battery_flow_change = −2000 W` (surplus orientation, so the sequence is
reversed and `discharge_limitation` runs before `load_switching`), battery
discharging at 3000 W, both limits at 5000 W, no forced command, no
load-switching devices. -/
theorem C1_frrdown_walk_name_error :
    calculateProposedActions (specLoadSwitching [] "frrdown") frrdownExampleState (-2000)
        (getToolSequence "frrdown" (surplusState "frrdown" (-2000))) "frrdown"
      = .error "NameError: name remaining_from_tool is not defined" := rfl

/-- C9: for `imatra`/`partn12` the code's "summer" month list is
`[3, …, 9]`, so **March** (month 3) is treated as summer even though the
code's own comment and the tariff table say April–September.  On a March
workday, hour 23 therefore gets the summer *day* rate 72.4 EUR/MWh (the
claim says winter night 42.0) and hour 7 gets the summer *night* rate 42.0
(the claim says winter day 72.4).  January and April behave as the table
says. -/
theorem C9_march_is_summer :
    calcNetworkFee "imatra" "partn12" 3 23 2 = 724/10000 ∧
    calcNetworkFee "imatra" "partn12" 3 7 2 = 420/10000 ∧
    (724/10000 : ℚ) ≠ 420/10000 ∧
    calcNetworkFee "imatra" "partn12" 1 23 2 = 420/10000 ∧
    calcNetworkFee "imatra" "partn12" 1 7 2 = 724/10000 ∧
    calcNetworkFee "imatra" "partn12" 4 7 2 = 420/10000 ∧
    calcNetworkFee "imatra" "partn12" 4 8 2 = 724/10000 := by
  decide

/-- C4: the fallback yields 96 slots with the right day/night pattern, fee
stacking, VAT and `total_price`, but its spot component is `50 · 0.7` resp.
`50 · 1.3` **EUR (not divided by 1000)**: the code omits the MWh→kWh
conversion, contradicting the `PriceSlot.spot_price` field's documented
EUR/kWh unit and the claim's `base/1000` formula (slot 0 is hour 0, night;
slot 40 is hour 10, day). -/
theorem C4_fallback_missing_unit_conversion :
    (getFallbackPrices "elektrilevi" "vork1" 6 2).length = 96 ∧
    ((getFallbackPrices "elektrilevi" "vork1" 6 2).get? 0).map PriceSlot.spotPrice
      = some ((50 * (7/10) + feeSum) * VAT_RATE) ∧
    ((getFallbackPrices "elektrilevi" "vork1" 6 2).get? 40).map PriceSlot.spotPrice
      = some ((50 * (13/10) + feeSum) * VAT_RATE) ∧
    ((50 * (7/10) : ℚ) + feeSum) * VAT_RATE ≠ (50 * (7/10) / 1000 + feeSum) * VAT_RATE ∧
    (∀ p ∈ getFallbackPrices "elektrilevi" "vork1" 6 2,
      p.totalPrice = p.spotPrice + p.networkFee) := by
  refine ⟨by decide, by decide, by decide, by decide, ?_⟩
  decide

/-- C5: the always-on seeding of the PERIOD branch sits inside
`if num_slots_per_period:`, so with a computed requirement of 0 slots
(here `desired_on_hours = 0`) **nothing** is seeded: slot 5 is marked
`always_on` by the `always_on_price` rule (5 c < 7 c), yet the resulting
schedule is all-OFF. -/
theorem C5_zero_requirement_skips_seeding :
    ((applyPriceConstraint zeroHoursDevice.alwaysOnPrice
        (applySlotConstraints [] [] cheapSlotPrices)).get? 5).map PriceSlot.alwaysOn
      = some true ∧
    calcDeviceSchedule zeroHoursDevice 0 cheapSlotPrices = some (List.replicate 96 false) ∧
    (calcDeviceSchedule zeroHoursDevice 0 cheapSlotPrices).map (fun l => l.get? 5)
      = some (some false) := by
  refine ⟨by decide, by decide, by decide⟩

/-- C2 counterexample: starting from a reset suppression counter, with the
previous forced-discharge command never realized, the 1st and 2nd `execute`
attempts are suppressed but the **3rd already proceeds** (the claim says
three are suppressed and the 4th proceeds); moreover with no active command
(`forced_power_flow = 0`) the realization check passes even when the observed
battery power differs by 5000 W > 200 W. -/
theorem C2_third_attempt_already_proceeds :
    (forcedDischargingGate 0 false false false).proceed = false ∧
    (forcedDischargingGate (forcedDischargingGate 0 false false false).count
      false false false).proceed = false ∧
    (forcedDischargingGate (forcedDischargingGate
        (forcedDischargingGate 0 false false false).count false false false).count
      false false false).proceed = true ∧
    isForcedPowerRealized 0 5000 = true := by
  decide

/-- C2 (amended): with an **active** forced command (`commanded ≠ 0`) whose
observed battery power differs by more than `max(200 W, 15 %·|commanded|)`,
the realization check fails, the forced-charging `execute` (outside a mode
transition) returns without any service call, and the forced-discharging
counter gate blocks while the incremented counter is still below 3 — so the
2nd consecutive suppressed attempt is the last one and the 3rd proceeds; the
counter resets exactly when a command is observed realized. -/
theorem C2_realization_gate (fpf bp : ℚ) (c : ℕ) (hne : fpf ≠ 0)
    (hdiff : |bp - fpf| > max 200 (|fpf| * (15/100))) :
    isForcedPowerRealized fpf bp = false ∧
    (∀ (target : ℚ) (cp : ℤ) (ic : Bool) (cl now last : ℚ),
      forcedChargingExecute target false fpf bp cp ic cl now last = ⟨[], last, false⟩) ∧
    forcedDischargingGate c (isForcedPowerRealized fpf bp) false false
      = (if c + 1 < 3 then ⟨false, c + 1⟩ else ⟨true, c + 1⟩) ∧
    (∀ (c2 : ℕ) (e mt : Bool), forcedDischargingGate c2 true e mt = ⟨true, 0⟩) := by
  have hreal : isForcedPowerRealized fpf bp = false := by
    unfold isForcedPowerRealized
    rw [if_neg hne]
    apply decide_eq_false
    rw [show (1 - 85/100 : ℚ) = 15/100 by norm_num]
    exact not_le.mpr hdiff
  refine ⟨hreal, ?_, ?_, ?_⟩
  · intro target cp ic cl now last
    unfold forcedChargingExecute
    simp [hreal]
  · rw [hreal]
    unfold forcedDischargingGate
    by_cases h3 : c + 1 < 3
    · simp [h3]
    · simp [h3]
  · intro c2 e mt
    unfold forcedDischargingGate
    simp

/-- C2 witness: the realization gate at `commanded = 1000 W`,
`observed = 0 W`, counter 0. -/
theorem C2_realization_gate_witness :
    isForcedPowerRealized 1000 0 = false ∧
    forcedDischargingGate 0 (isForcedPowerRealized 1000 0) false false
      = (if 0 + 1 < 3 then ⟨false, 0 + 1⟩ else ⟨true, 0 + 1⟩) := by
  have h := C2_realization_gate 1000 0 0 (by norm_num) (by rw [abs_of_nonpos] <;> norm_num)
  exact ⟨h.1, h.2.2.1⟩

/-- The clamp keeps every debt value at most `max_energy_debt`. -/
theorem debtRun_le (m : ℕ) :
    ∀ (ticks : List (Bool × Bool)) (d : ℕ), d ≤ m → debtRun m d ticks ≤ m := by
  intro ticks
  induction ticks with
  | nil => intro d hd; exact hd
  | cons t ts ih =>
    intro d hd
    have hstep : debtStep m d t.1 t.2 ≤ m := by
      unfold debtStep
      split_ifs <;> omega
    exact ih _ hstep

/-- When neither clamp binds along the run, the final debt is the initial
debt plus accrued minutes minus paid-back minutes. -/
theorem debtRun_net (m : ℕ) :
    ∀ (ticks : List (Bool × Bool)) (d : ℕ), debtClampFree m d ticks = true →
      (debtRun m d ticks : ℤ) = (d : ℤ) + debtAdds ticks - debtSubs ticks := by
  intro ticks
  induction ticks with
  | nil => intro d _; simp [debtRun, debtAdds, debtSubs]
  | cons t ts ih =>
    intro d hfree
    obtain ⟨t1, t2⟩ := t
    simp only [debtClampFree, Bool.and_eq_true, Bool.or_eq_true, Bool.not_eq_true',
      decide_eq_true_eq] at hfree
    obtain ⟨⟨hadd, hsub⟩, hrest⟩ := hfree
    have hrun : debtRun m d ((t1, t2) :: ts) = debtRun m (debtStep m d t1 t2) ts := rfl
    rw [hrun, ih _ hrest]
    cases t1 <;> cases t2 <;>
      simp_all [debtStep, debtAdds, debtSubs, List.filter] <;>
      ((try split_ifs) <;> omega)

/-- C7: the energy-debt tick behaves as claimed: scheduled-ON/actual-OFF
adds a clamped minute, scheduled-OFF/actual-ON subtracts a floored minute,
debt stays within `[0, max_energy_debt]` along any run started within
bounds (0 is automatic: debt is a natural number), and whenever the clamps
never bind, the net change equals minutes added minus minutes subtracted. -/
theorem C7_energy_debt (m d : ℕ) (ticks : List (Bool × Bool)) (hd : d ≤ m) :
    (∀ d0, debtStep m d0 true false = min (d0 + 1) m) ∧
    (∀ d0, debtStep m d0 false true = d0 - 1) ∧
    debtRun m d ticks ≤ m ∧
    (debtClampFree m d ticks = true →
      (debtRun m d ticks : ℤ) = (d : ℤ) + debtAdds ticks - debtSubs ticks) := by
  refine ⟨?_, ?_, debtRun_le m ticks d hd, debtRun_net m ticks d⟩
  · intro d0
    unfold debtStep
    split_ifs <;> simp_all <;> omega
  · intro d0
    unfold debtStep
    split_ifs <;> simp_all <;> omega

/-- C7 witness: an accrual followed by a payback on `max_energy_debt = 180`
returns the debt to its starting value. -/
theorem C7_energy_debt_witness :
    debtRun 180 0 [(true, false), (false, true)] ≤ 180 ∧
    (debtRun 180 0 [(true, false), (false, true)] : ℤ)
      = (0 : ℤ) + debtAdds [(true, false), (false, true)]
        - debtSubs [(true, false), (false, true)] := by
  have h := C7_energy_debt 180 0 [(true, false), (false, true)] (by decide)
  exact ⟨h.2.2.1, h.2.2.2 (by decide)⟩

/-- `ratFloor` on an integer is that integer. -/
theorem ratFloor_intCast (n : ℤ) : ratFloor (n : ℚ) = n := by
  unfold ratFloor
  rw [Rat.intCast_num, Rat.intCast_den]
  simp

/-- Python `round` on an integer is that integer. -/
theorem pyRound_intCast (n : ℤ) : pyRound (n : ℚ) = n := by
  unfold pyRound
  rw [ratFloor_intCast]
  norm_num

/-- C8 counterexample: with no forced charging active (observed current
value 0) and the cooldown elapsed, `ForcedChargingTool.execute(0)`
degenerates to `stop`, which **does** issue the stop service call and
updates the cooldown timestamp — not a no-op. -/
theorem C8_execute_zero_not_noop :
    forcedChargingExecute 0 false 0 0 0 false 5000 100 0
      = ⟨["huawei_solar/stop_forcible_charge"], 100, true⟩ ∧
    (forcedChargingExecute 0 false 0 0 0 false 5000 100 0).serviceCalls ≠ [] ∧
    (forcedChargingExecute 0 false 0 0 0 false 5000 100 0).lastCommandTime ≠ 0 := by
  decide

/-- C8 (amended): for every in-range observed value, `execute(current_value)`
issues no service call and leaves the cooldown timestamp unchanged for the
charging-adjustment and discharge-limitation tools (any current value in
`[0, 5000]`), the export tool (current limit matching the target, in limited
or unlimited mode), and the forced-charging and forced-discharging tools at
a **positive** current value; at 0 the forced tools instead degenerate to
`stop` (see the counterexample). -/
theorem C8_execute_current_is_noop (n : ℤ) (hn0 : 0 < n) (hnmax : n ≤ maxBatteryPower)
    (k : ℤ) (hk0 : 0 ≤ k) (hkmax : k ≤ maxBatteryPower)
    (e : ℤ) (he0 : 0 < e) (hemax : e < maxFeedGridPower) :
    (∀ (sf sb cl now last : ℚ),
      forcedChargingExecute (n : ℚ) false sf sb n true cl now last = ⟨[], last, false⟩) ∧
    (∀ (sf sb dl now last : ℚ) (c : ℕ),
      (forcedDischargingExecute (n : ℚ) false false sf sb c n true dl now last).1
        = ⟨[], last, false⟩) ∧
    (∀ (now last : ℚ),
      chargingAdjustmentExecute (k : ℚ) (k : ℚ) now last = ⟨[], last, false⟩) ∧
    (∀ (now last : ℚ),
      dischargeLimitationExecute (k : ℚ) (k : ℚ) now last = ⟨[], last, false⟩) ∧
    (∀ (now last : ℚ),
      exportLimitationExecute (e : ℚ) (e : ℚ) "limited" now last = ⟨[], last, false⟩) ∧
    (∀ (now last : ℚ),
      exportLimitationExecute (maxFeedGridPower : ℚ) (maxFeedGridPower : ℚ) "unlimited"
        now last = ⟨[], last, false⟩) := by
  have hclamp : ∀ (t0 bound : ℤ), 0 ≤ t0 → t0 ≤ bound →
      (if t0 > bound then bound else if t0 < 0 then 0 else t0) = t0 := by
    intro t0 bound h1 h2
    rw [if_neg (by omega), if_neg (by omega)]
  refine ⟨?_, ?_, ?_, ?_, ?_, ?_⟩
  · intro sf sb cl now last
    unfold forcedChargingExecute
    rcases h : isForcedPowerRealized sf sb with _ | _
    · simp [h]
    · simp [h, pyRound_intCast, hclamp n maxBatteryPower (by omega) hnmax,
        (show n ≠ 0 by omega)]
  · intro sf sb dl now last c
    unfold forcedDischargingExecute
    rcases hg : (forcedDischargingGate c (isForcedPowerRealized sf sb) false false).proceed
      with _ | _
    · simp [hg]
    · simp [hg, pyRound_intCast, hclamp n maxBatteryPower (by omega) hnmax,
        (show n ≠ 0 by omega)]
  · intro now last
    unfold chargingAdjustmentExecute
    simp [pyRound_intCast, hclamp k maxBatteryPower hk0 hkmax, minimumChargingAdjustmentWatts]
  · intro now last
    unfold dischargeLimitationExecute
    simp [pyRound_intCast, hclamp k maxBatteryPower hk0 hkmax, minimumChargingAdjustmentWatts]
  · intro now last
    unfold exportLimitationExecute
    simp [pyRound_intCast, hclamp e maxFeedGridPower (by omega) (by omega)]
  · intro now last
    unfold exportLimitationExecute
    simp [pyRound_intCast, (show ¬ (maxFeedGridPower : ℤ) < 0 by decide)]

/-- C8 witness: charging at 1000 W, rate limit 3000 W, export limit
5000 W. -/
theorem C8_execute_current_is_noop_witness :
    chargingAdjustmentExecute ((3000 : ℤ) : ℚ) ((3000 : ℤ) : ℚ) 100 0 = ⟨[], 0, false⟩ ∧
    forcedChargingExecute ((1000 : ℤ) : ℚ) false 1000 1000 1000 true 5000 100 0
      = ⟨[], 0, false⟩ := by
  have h := C8_execute_current_is_noop 1000 (by norm_num) (by norm_num [maxBatteryPower])
    3000 (by norm_num) (by norm_num [maxBatteryPower])
    5000 (by norm_num) (by norm_num [maxFeedGridPower])
  exact ⟨h.2.2.1 100 0, h.1 1000 1000 5000 100 0⟩

/-- The imperative rank-filter loop equals a filter over the enumerated
sorted list. -/
theorem rankFilterLoop_eq_filter (mr xr : Option ℤ) (len : ℕ) :
    ∀ (xs : List (ℕ × PriceSlot)) (i : ℕ),
      rankFilterLoop mr xr len i xs
        = ((xs.enumFrom i).filter fun p =>
            !skipByMinRank mr ((mkRat p.1 len) * 100) &&
            !skipByMaxRank xr ((mkRat p.1 len) * 100)).map Prod.snd := by
  intro xs
  induction xs with
  | nil => intro i; rfl
  | cons x xs ih =>
    intro i
    simp only [rankFilterLoop, List.enumFrom, List.filter]
    rcases hmin : skipByMinRank mr ((mkRat i len) * 100) with _ | _ <;>
      rcases hmax : skipByMaxRank xr ((mkRat i len) * 100) with _ | _ <;>
      simp [hmin, hmax, ih]

/-- C6 counterexample: on a two-slot list with a **provided** `max_rank = 0`,
the second sorted element has rank `(1/2)·100 = 50 > 0` and should be
excluded by the claim, yet `get_cheapest_slots` returns both indices:
Python's `if max_rank and …` treats the bound 0 as absent. -/
theorem C6_zero_max_rank_not_filtered :
    getCheapestSlots rankExampleSlots 2 none (some 0) = [0, 1] ∧
    (mkRat 1 2) * 100 > (0 : ℚ) ∧
    getCheapestSlots rankExampleSlots 2 none (some 0) ≠ [0] := by
  refine ⟨by decide, by decide, by decide⟩

/-- C6 (amended): `get_cheapest_slots` stable-sorts by `total_price` keeping
original indices, ranks the i-th sorted element `100·i/len`, keeps exactly
the elements not excluded by a provided **nonzero** bound (strictly below
`min_rank` or strictly above `max_rank` is dropped; an absent or zero bound
disables that side), and returns the first `n` input-relative indices. -/
theorem C6_get_cheapest_slots_spec (prices : List PriceSlot) (numSlots : ℕ)
    (minRank maxRank : Option ℤ) :
    getCheapestSlots prices numSlots minRank maxRank
      = getCheapestSlotsSpec prices numSlots minRank maxRank := by
  unfold getCheapestSlots getCheapestSlotsSpec
  by_cases h : minRank.isSome ∨ maxRank.isSome
  · simp only [if_pos h, rankFilterLoop_eq_filter, List.enum]
  · have hm : minRank = none := by
      rcases minRank with _ | m
      · rfl
      · exact absurd (Or.inl rfl) h
    have hx : maxRank = none := by
      rcases maxRank with _ | m
      · rfl
      · exact absurd (Or.inr rfl) h
    subst hm
    subst hx
    simp [skipByMinRank, skipByMaxRank, List.enum_map_snd]

/-- The charging-adjustment handler only ever proposes charging-adjustment
actions. -/
theorem handleChargingAdjustment_not_fd (s : SystemState) (f pv : ℚ) (m : String)
    (a : PAction) (r : ℚ) (h : handleChargingAdjustment s f pv m = some (some a, r)) :
    a.isForcedDischarge = false := by
  rcases a with t | t | t | t | t | ⟨l, o⟩ <;> try rfl
  unfold handleChargingAdjustment at h
  simp only [ite_eq_iff] at h
  simp_all

/-- The forced-charging handler only ever proposes forced-charging
actions. -/
theorem handleForcedCharging_not_fd (s : SystemState) (f : ℚ) (m : String)
    (a : PAction) (r : ℚ) (h : handleForcedCharging s f m = some (some a, r)) :
    a.isForcedDischarge = false := by
  rcases a with t | t | t | t | t | ⟨l, o⟩ <;> try rfl
  unfold handleForcedCharging at h
  simp only [ite_eq_iff] at h
  simp_all

/-- The discharge-limitation handler only ever proposes discharge-limitation
actions. -/
theorem handleDischargeLimitation_not_fd (s : SystemState) (f : ℚ)
    (a : PAction) (r : ℚ) (h : handleDischargeLimitation s f = some (some a, r)) :
    a.isForcedDischarge = false := by
  rcases a with t | t | t | t | t | ⟨l, o⟩ <;> try rfl
  unfold handleDischargeLimitation at h
  simp only [ite_eq_iff] at h
  simp_all

/-- The export-limitation handler only ever proposes export-limitation
actions. -/
theorem handleExportLimitation_not_fd (f : ℚ) (m : String)
    (a : PAction) (h : handleExportLimitation f m = some a) :
    a.isForcedDischarge = false := by
  rcases a with t | t | t | t | t | ⟨l, o⟩ <;> try rfl
  unfold handleExportLimitation at h
  simp only [ite_eq_iff] at h
  simp_all

/-- With the discharge limit at 0 and no active forced discharge, and outside
the absolute-target modes `buy`/`sell`, the forced-discharging handler never
proposes an action: in surplus there is nothing to reduce, and in deficit the
additional headroom `min(max − 0, 0 − 0) = 0` is below the 10 W minimum. -/
theorem handleForcedDischarging_no_action (s : SystemState) (mode : String) (f : ℚ)
    (hb : mode ≠ "buy") (hs : mode ≠ "sell")
    (hlim : s.dischargingRateLimit = 0) (hfpf : 0 ≤ s.forcedPowerFlow) :
    ∀ (a : PAction) (r : ℚ), handleForcedDischarging s f mode ≠ some (some a, r) := by
  intro a r h
  have hcd : max 0 (-s.forcedPowerFlow) = 0 := max_eq_left (neg_nonpos.mpr hfpf)
  simp only [handleForcedDischarging, hlim, hcd] at h
  have hmin0 : ((maxBatteryPower : ℚ) - 0) ⊓ ((0 : ℚ) - 0) = 0 := by
    rw [sub_zero, sub_zero]
    exact min_eq_right (by norm_num [maxBatteryPower])
  have hma : |f| ⊓ (((maxBatteryPower : ℚ) - 0) ⊓ ((0 : ℚ) - 0)) = 0 := by
    rw [hmin0]
    exact min_eq_right (abs_nonneg f)
  split_ifs at h <;> simp_all [hma, minimumDischargeChangeWatts]
  all_goals linarith

/-- Walking any tool sequence from a state whose forced-discharging handler
never proposes an action (or whose sequence never dispatches it) executes no
forced-discharge action. -/
theorem walkTools_no_forced_discharge (lsw : LswHandler) (s : SystemState) (mode : String)
    (pv : ℚ) :
    ∀ (seq : List String) (flow : ℚ) (acc : List PAction) (rem : Option ℚ),
      ("forced_discharging" ∈ seq →
        ∀ (f : ℚ) (a : PAction) (r : ℚ), handleForcedDischarging s f mode ≠ some (some a, r)) →
      (∀ x ∈ acc, x.isForcedDischarge = false) →
      ∀ a ∈ executedActions (walkTools lsw s mode pv seq flow acc rem),
        a.isForcedDischarge = false := by
  intro seq
  induction seq with
  | nil =>
    intro flow acc rem _ hacc a ha
    exact hacc a ha
  | cons t rest ih =>
    intro flow acc rem hfd hacc a ha
    have hfdr : "forced_discharging" ∈ rest →
        ∀ (f : ℚ) (a : PAction) (r : ℚ), handleForcedDischarging s f mode ≠ some (some a, r) :=
      fun hm => hfd (List.mem_cons_of_mem _ hm)
    have haccx : ∀ (y : PAction), y.isForcedDischarge = false →
        ∀ x ∈ acc ++ [y], x.isForcedDischarge = false := by
      intro y hy x hx
      rcases List.mem_append.mp hx with hx | hx
      · exact hacc x hx
      · rw [List.mem_singleton.mp hx]; exact hy
    rw [walkTools] at ha
    by_cases hflow : |flow| < 1
    · rw [if_pos hflow] at ha
      exact hacc a ha
    · rw [if_neg hflow] at ha
      by_cases h1 : t = "charging_adjustment"
      · rw [if_pos h1] at ha
        rcases hh : handleChargingAdjustment s flow pv mode with _ | ⟨a1, r1⟩ <;> rw [hh] at ha
        · exact ih flow acc rem hfdr hacc a ha
        · rcases a1 with _ | act <;> simp only [Option.toList, List.append_nil] at ha
          · exact ih r1 acc rem hfdr hacc a ha
          · exact ih r1 (acc ++ [act]) rem hfdr
              (haccx act (handleChargingAdjustment_not_fd s flow pv mode act r1 hh)) a ha
      · rw [if_neg h1] at ha
        by_cases h2 : t = "forced_charging"
        · rw [if_pos h2] at ha
          rcases hh : handleForcedCharging s flow mode with _ | ⟨a1, r1⟩ <;> rw [hh] at ha
          · exact ih flow acc rem hfdr hacc a ha
          · rcases a1 with _ | act <;> simp only [Option.toList, List.append_nil] at ha
            · exact ih r1 acc rem hfdr hacc a ha
            · exact ih r1 (acc ++ [act]) rem hfdr
                (haccx act (handleForcedCharging_not_fd s flow mode act r1 hh)) a ha
        · rw [if_neg h2] at ha
          by_cases h3 : t = "forced_discharging"
          · rw [if_pos h3] at ha
            rcases hh : handleForcedDischarging s flow mode with _ | ⟨a1, r1⟩ <;> rw [hh] at ha
            · exact ih flow acc rem hfdr hacc a ha
            · rcases a1 with _ | act <;> simp only [Option.toList, List.append_nil] at ha
              · exact ih r1 acc rem hfdr hacc a ha
              · exact absurd hh
                  (hfd (by rw [h3]; exact List.mem_cons_self _ _) flow act r1)
          · rw [if_neg h3] at ha
            by_cases h4 : t = "export_limitation"
            · rw [if_pos h4] at ha
              rcases hh : handleExportLimitation flow mode with _ | act <;> rw [hh] at ha
              · exact ih flow acc rem hfdr hacc a ha
              · exact ih 0 (acc ++ [act]) rem hfdr
                  (haccx act (handleExportLimitation_not_fd flow mode act hh)) a ha
            · rw [if_neg h4] at ha
              by_cases h5 : t = "discharge_limitation"
              · rw [if_pos h5] at ha
                rcases hh : handleDischargeLimitation s flow with _ | ⟨a1, r1⟩ <;> rw [hh] at ha
                · exact ih flow acc rem hfdr hacc a ha
                · rcases rem with _ | v
                  · simp [executedActions] at ha
                  · rcases a1 with _ | act <;> simp only [Option.toList, List.append_nil] at ha
                    · exact ih v acc (some v) hfdr hacc a ha
                    · exact ih v (acc ++ [act]) (some v) hfdr
                        (haccx act (handleDischargeLimitation_not_fd s flow act r1 hh)) a ha
              · rw [if_neg h5] at ha
                by_cases h6 : t = "load_switching"
                · rw [if_pos h6] at ha
                  rcases hh : lsw flow with ⟨a1, r1⟩
                  rw [hh] at ha
                  rcases a1 with _ | payload
                  · exact ih flow acc rem hfdr hacc a ha
                  · exact ih r1 (acc ++ [.loadSwitching payload.1 payload.2])
                      (some r1) hfdr (haccx (.loadSwitching payload.1 payload.2) rfl) a ha
                · rw [if_neg h6] at ha
                  exact ih flow acc rem hfdr hacc a ha

/-- Heating protection, continue-balancing branch: balancing is not
skipped. -/
theorem heatingProtection_continue_skip (s : SystemState) (mode : String)
    (hheat : s.heatingActive = true) (hmem : mode ∈ chargeAllowedModes) :
    (applyHeatingProtection s mode).skip = false := by
  unfold applyHeatingProtection
  rw [if_neg (by simp [hheat]), if_pos hmem]

/-- Heating protection, continue-balancing branch: a positive discharge
limit triggers the limit-to-0 action. -/
theorem heatingProtection_continue_act (s : SystemState) (mode : String)
    (hheat : s.heatingActive = true) (hmem : mode ∈ chargeAllowedModes)
    (hpos : s.dischargingRateLimit > 0) :
    (applyHeatingProtection s mode).dischargeLimitAction
      = some (.dischargeLimitation 0) := by
  unfold applyHeatingProtection
  rw [if_neg (by simp [hheat]), if_pos hmem]
  simp [hpos]

/-- Heating protection, continue-balancing branch: an active forced
discharge is stopped. -/
theorem heatingProtection_continue_stop (s : SystemState) (mode : String)
    (hheat : s.heatingActive = true) (hmem : mode ∈ chargeAllowedModes)
    (hneg : s.forcedPowerFlow < 0) :
    (applyHeatingProtection s mode).stoppedForcedDischarge = true := by
  unfold applyHeatingProtection
  rw [if_neg (by simp [hheat]), if_pos hmem]
  simp [hneg]

/-- Heating protection, continue-balancing branch: the local state's
discharge limit is forced to 0. -/
theorem heatingProtection_continue_lim (s : SystemState) (mode : String)
    (hheat : s.heatingActive = true) (hmem : mode ∈ chargeAllowedModes) :
    (applyHeatingProtection s mode).newState.dischargingRateLimit = 0 := by
  unfold applyHeatingProtection
  rw [if_neg (by simp [hheat]), if_pos hmem]

/-- Heating protection, continue-balancing branch: the local state's forced
power flow is nonnegative afterwards. -/
theorem heatingProtection_continue_fpf (s : SystemState) (mode : String)
    (hheat : s.heatingActive = true) (hmem : mode ∈ chargeAllowedModes) :
    0 ≤ (applyHeatingProtection s mode).newState.forcedPowerFlow := by
  unfold applyHeatingProtection
  rw [if_neg (by simp [hheat]), if_pos hmem]
  by_cases hc : s.forcedPowerFlow < 0
  · simp [hc]
  · simp only [if_neg hc]
    exact le_of_not_lt hc

/-- Heating protection, skip branch: balancing is skipped. -/
theorem heatingProtection_skip_skip (s : SystemState) (mode : String)
    (hheat : s.heatingActive = true) (hnm : mode ∉ chargeAllowedModes)
    (hmem : mode ∈ enforceSkipModes) :
    (applyHeatingProtection s mode).skip = true := by
  unfold applyHeatingProtection
  rw [if_neg (by simp [hheat]), if_neg hnm, if_pos hmem]

/-- Heating protection, skip branch: a positive discharge limit triggers
the limit-to-0 action. -/
theorem heatingProtection_skip_act (s : SystemState) (mode : String)
    (hheat : s.heatingActive = true) (hnm : mode ∉ chargeAllowedModes)
    (hmem : mode ∈ enforceSkipModes) (hpos : s.dischargingRateLimit > 0) :
    (applyHeatingProtection s mode).dischargeLimitAction
      = some (.dischargeLimitation 0) := by
  unfold applyHeatingProtection
  rw [if_neg (by simp [hheat]), if_neg hnm, if_pos hmem]
  simp [hpos]

/-- Heating protection, skip branch: an active forced discharge is
stopped. -/
theorem heatingProtection_skip_stop (s : SystemState) (mode : String)
    (hheat : s.heatingActive = true) (hnm : mode ∉ chargeAllowedModes)
    (hmem : mode ∈ enforceSkipModes) (hneg : s.forcedPowerFlow < 0) :
    (applyHeatingProtection s mode).stoppedForcedDischarge = true := by
  unfold applyHeatingProtection
  rw [if_neg (by simp [hheat]), if_neg hnm, if_pos hmem]
  simp [hneg]

/-- C3: while heating is active, in every valid mode the protection step
emits the discharge-limit-to-0 action whenever the limit is positive and
stops any active forced discharge; and whenever balancing continues, the
subsequent walk of the mode's tool sequence on the protected local state
executes no forced-discharge action, whatever the load-switching handler,
the desired flow change and the surplus orientation (the skipped modes run
no walk at all). -/
theorem C3_heating_interlock (s : SystemState) (mode : String)
    (hheat : s.heatingActive = true) (hmode : mode ∈ validModes) :
    (s.dischargingRateLimit > 0 →
      (applyHeatingProtection s mode).dischargeLimitAction
        = some (.dischargeLimitation 0)) ∧
    (s.forcedPowerFlow < 0 →
      (applyHeatingProtection s mode).stoppedForcedDischarge = true) ∧
    ((applyHeatingProtection s mode).skip = false →
      ∀ (lsw : LswHandler) (flow : ℚ) (surplus : Bool),
        ∀ a ∈ executedActions (calculateProposedActions lsw
            (applyHeatingProtection s mode).newState flow
            (getToolSequence mode surplus) mode),
          a.isForcedDischarge = false) := by
  have hwalk1 : ∀ (m : String), m ∈ chargeAllowedModes → m ≠ "buy" → m ≠ "sell" → mode = m →
      ∀ (lsw : LswHandler) (flow : ℚ) (surplus : Bool),
        ∀ a ∈ executedActions (calculateProposedActions lsw
            (applyHeatingProtection s m).newState flow
            (getToolSequence m surplus) m),
          a.isForcedDischarge = false := by
    intro m hmem hb hsell hmode lsw flow surplus a ha
    simp only [calculateProposedActions] at ha
    exact walkTools_no_forced_discharge lsw _ m _ (getToolSequence m surplus) _ [] none
      (fun _ f a1 r1 => handleForcedDischarging_no_action _ m f hb hsell
        (heatingProtection_continue_lim s m hheat hmem)
        (heatingProtection_continue_fpf s m hheat hmem) a1 r1)
      (by simp) a ha
  have hwalk2 : ∀ (m : String), ("forced_discharging" ∉ getToolSequence m true ∧
        "forced_discharging" ∉ getToolSequence m false) →
      ∀ (lsw : LswHandler) (flow : ℚ) (surplus : Bool),
        ∀ a ∈ executedActions (calculateProposedActions lsw
            (applyHeatingProtection s m).newState flow
            (getToolSequence m surplus) m),
          a.isForcedDischarge = false := by
    intro m hnofd lsw flow surplus a ha
    simp only [calculateProposedActions] at ha
    refine walkTools_no_forced_discharge lsw _ m _ (getToolSequence m surplus) _ [] none
      (fun hm => absurd hm ?_) (by simp) a ha
    cases surplus
    · exact hnofd.2
    · exact hnofd.1
  simp only [validModes, List.mem_cons, List.mem_singleton, List.not_mem_nil, or_false] at hmode
  rcases hmode with h | h | h | h | h | h | h | h | h <;> subst h
  · exact ⟨heatingProtection_continue_act s _ hheat (by decide),
      heatingProtection_continue_stop s _ hheat (by decide),
      fun _ => hwalk1 _ (by decide) (by decide) (by decide) rfl⟩
  · refine ⟨heatingProtection_skip_act s _ hheat (by decide) (by decide),
      heatingProtection_skip_stop s _ hheat (by decide) (by decide), fun hskip => ?_⟩
    rw [heatingProtection_skip_skip s _ hheat (by decide) (by decide)] at hskip
    exact absurd hskip (by simp)
  · refine ⟨heatingProtection_skip_act s _ hheat (by decide) (by decide),
      heatingProtection_skip_stop s _ hheat (by decide) (by decide), fun hskip => ?_⟩
    rw [heatingProtection_skip_skip s _ hheat (by decide) (by decide)] at hskip
    exact absurd hskip (by simp)
  · exact ⟨heatingProtection_continue_act s _ hheat (by decide),
      heatingProtection_continue_stop s _ hheat (by decide),
      fun _ => hwalk1 _ (by decide) (by decide) (by decide) rfl⟩
  · exact ⟨heatingProtection_continue_act s _ hheat (by decide),
      heatingProtection_continue_stop s _ hheat (by decide),
      fun _ => hwalk1 _ (by decide) (by decide) (by decide) rfl⟩
  · exact ⟨heatingProtection_continue_act s _ hheat (by decide),
      heatingProtection_continue_stop s _ hheat (by decide),
      fun _ => hwalk2 _ (by decide)⟩
  · refine ⟨heatingProtection_skip_act s _ hheat (by decide) (by decide),
      heatingProtection_skip_stop s _ hheat (by decide) (by decide), fun hskip => ?_⟩
    rw [heatingProtection_skip_skip s _ hheat (by decide) (by decide)] at hskip
    exact absurd hskip (by simp)
  · exact ⟨heatingProtection_continue_act s _ hheat (by decide),
      heatingProtection_continue_stop s _ hheat (by decide),
      fun _ => hwalk1 _ (by decide) (by decide) (by decide) rfl⟩
  · exact ⟨heatingProtection_continue_act s _ hheat (by decide),
      heatingProtection_continue_stop s _ hheat (by decide),
      fun _ => hwalk2 _ (by decide)⟩

/-- C3 witness: mode `normal` while heating is on, the battery
force-discharging at 1000 W with limit 5000 W, then a 1800 W deficit walk. -/
theorem C3_heating_interlock_witness :
    (applyHeatingProtection heatingExampleState "normal").dischargeLimitAction
      = some (.dischargeLimitation 0) ∧
    (applyHeatingProtection heatingExampleState "normal").stoppedForcedDischarge = true ∧
    ∀ a ∈ executedActions (calculateProposedActions (specLoadSwitching [] "normal")
        (applyHeatingProtection heatingExampleState "normal").newState (-1800)
        (getToolSequence "normal" false) "normal"),
      a.isForcedDischarge = false := by
  have h := C3_heating_interlock heatingExampleState "normal" rfl (by decide)
  exact ⟨h.1 (by decide), h.2.1 (by decide),
    h.2.2 (by decide) (specLoadSwitching [] "normal") (-1800) false⟩

/-- A successful `charDigit` means the character is a decimal digit. -/
theorem charDigit_isDigit (c : Char) (d : ℕ) (h : charDigit c = some d) :
    '0' ≤ c ∧ c ≤ '9' := by
  unfold charDigit at h
  by_cases hc : '0' ≤ c ∧ c ≤ '9'
  · exact hc
  · rw [if_neg hc] at h
    exact Option.noConfusion h

/-- Folding the digit accumulator from `none` stays `none`. -/
theorem digitsFoldl_none : ∀ (cs : List Char),
    cs.foldl (fun acc c => do
      let a ← acc
      let d ← charDigit c
      pure (a * 10 + d)) (none : Option ℕ) = none := by
  intro cs
  induction cs with
  | nil => rfl
  | cons c cs ih => exact ih

/-- A successful digit fold means every character is a decimal digit. -/
theorem digitsFoldl_digits : ∀ (cs : List Char) (a x : ℕ),
    cs.foldl (fun acc c => do
      let a ← acc
      let d ← charDigit c
      pure (a * 10 + d)) (some a) = some x →
    ∀ c ∈ cs, '0' ≤ c ∧ c ≤ '9' := by
  intro cs
  induction cs with
  | nil =>
    intro a x _ c hc
    exact absurd hc (List.not_mem_nil c)
  | cons c0 cs ih =>
    intro a x h c hc
    rw [List.foldl_cons] at h
    rcases hd : charDigit c0 with _ | d
    · rw [show ((do
          let a1 ← some a
          let d ← charDigit c0
          pure (a1 * 10 + d)) : Option ℕ) = none by simp [hd]] at h
      rw [digitsFoldl_none] at h
      exact Option.noConfusion h
    · rw [show ((do
          let a1 ← some a
          let d ← charDigit c0
          pure (a1 * 10 + d)) : Option ℕ) = some (a * 10 + d) by simp [hd]] at h
      rcases List.mem_cons.mp hc with rfl | hc2
      · exact charDigit_isDigit _ d hd
      · exact ih (a * 10 + d) x h c hc2

/-- A successful `int()` parse means every character is a decimal digit. -/
theorem digitsToNat_digits (cs : List Char) (x : ℕ) (h : digitsToNat cs = some x) :
    ∀ c ∈ cs, '0' ≤ c ∧ c ≤ '9' := by
  cases cs with
  | nil => exact fun c hc => absurd hc (List.not_mem_nil c)
  | cons c0 cs => exact digitsFoldl_digits (c0 :: cs) 0 x h

/-- A decimal digit is not the dash separator. -/
theorem digit_ne_dash (c : Char) (h : '0' ≤ c ∧ c ≤ '9') : c ≠ '-' := by
  rintro rfl
  exact absurd h.1 (by decide)

/-- A decimal digit is not whitespace. -/
theorem digit_not_ws (c : Char) (h : '0' ≤ c ∧ c ≤ '9') : isPyWhitespace c = false := by
  have hne : ¬(c = ' ' ∨ c = '\t' ∨ c = '\n' ∨ c = '\r') := by
    rintro (rfl | rfl | rfl | rfl) <;> exact absurd h.1 (by decide)
  unfold isPyWhitespace
  exact decide_eq_false hne

/-- `dropWhile` is the identity when no element satisfies the predicate. -/
theorem dropWhile_eq_self_of_not (p : Char → Bool) (l : List Char)
    (h : ∀ c ∈ l, p c = false) : l.dropWhile p = l := by
  cases l with
  | nil => rfl
  | cons c cs =>
    rw [List.dropWhile_cons, h c (List.mem_cons_self c cs)]
    simp

/-- `strip()` is the identity on whitespace-free strings. -/
theorem stripChars_eq_self (s : List Char) (h : ∀ c ∈ s, isPyWhitespace c = false) :
    stripChars s = s := by
  unfold stripChars
  rw [dropWhile_eq_self_of_not _ s h,
    dropWhile_eq_self_of_not _ s.reverse (fun c hc => h c (List.mem_reverse.mp hc))]
  exact List.reverse_reverse s

/-- `contains` of an absent character is `false`. -/
theorem contains_eq_false_of_not_mem (l : List Char) (c : Char) (h : c ∉ l) :
    l.contains c = false := by
  cases hc : l.contains c with
  | false => rfl
  | true => exact absurd (List.mem_of_elem_eq_true hc) h

/-- `split(sep)` of a separator-free string is the single chunk. -/
theorem splitOnChar_no_sep (sep : Char) :
    ∀ (l : List Char), (∀ c ∈ l, c ≠ sep) → splitOnChar sep l = [l] := by
  intro l
  induction l with
  | nil => intro _; rfl
  | cons c cs ih =>
    intro h
    have hc : c ≠ sep := h c (List.mem_cons_self c cs)
    simp only [splitOnChar, if_neg hc,
      ih (fun x hx => h x (List.mem_cons_of_mem c hx))]

/-- `split(sep)` around one separator with separator-free sides gives the two
chunks. -/
theorem splitOnChar_append (sep : Char) (b : List Char) (hb : ∀ c ∈ b, c ≠ sep) :
    ∀ (a : List Char), (∀ c ∈ a, c ≠ sep) →
      splitOnChar sep (a ++ sep :: b) = [a, b] := by
  intro a
  induction a with
  | nil =>
    intro _
    show splitOnChar sep (sep :: b) = [[], b]
    simp [splitOnChar, splitOnChar_no_sep sep b hb]
  | cons c cs ih =>
    intro h
    have hc : c ≠ sep := h c (List.mem_cons_self c cs)
    show splitOnChar sep (c :: (cs ++ sep :: b)) = [c :: cs, b]
    simp only [splitOnChar, if_neg hc,
      ih (fun x hx => h x (List.mem_cons_of_mem c hx))]

/-- A token of the shape `"a-b"` with both sides parsing as numbers parses to
`range(a, b)`: the hours `a` through `b − 1`, the end hour excluded. -/
theorem parseHourToken_range (a b : List Char) (x y : ℕ)
    (ha : digitsToNat a = some x) (hb : digitsToNat b = some y) :
    parseHourToken (a ++ '-' :: b) = some (List.range' x (y - x)) := by
  have hda := digitsToNat_digits a x ha
  have hdb := digitsToNat_digits b y hb
  have hws : ∀ c ∈ a ++ '-' :: b, isPyWhitespace c = false := by
    intro c hc
    rcases List.mem_append.mp hc with hc | hc
    · exact digit_not_ws c (hda c hc)
    · rcases List.mem_cons.mp hc with rfl | hc
      · rfl
      · exact digit_not_ws c (hdb c hc)
  have hcont : (a ++ '-' :: b).contains '-' = true :=
    List.elem_eq_true_of_mem (by simp)
  have hsplit : splitOnChar '-' (a ++ '-' :: b) = [a, b] :=
    splitOnChar_append '-' b (fun c hc => digit_ne_dash c (hdb c hc))
      a (fun c hc => digit_ne_dash c (hda c hc))
  simp only [parseHourToken, stripChars_eq_self _ hws, hcont, if_true, hsplit]
  simp [ha, hb]

/-- A bare-number token parses to the single hour. -/
theorem parseHourToken_single (a : List Char) (x : ℕ) (ha : digitsToNat a = some x) :
    parseHourToken a = some [x] := by
  have hda := digitsToNat_digits a x ha
  have hws : ∀ c ∈ a, isPyWhitespace c = false := fun c hc => digit_not_ws c (hda c hc)
  have hcont : a.contains '-' = false :=
    contains_eq_false_of_not_mem a '-' (fun hm => digit_ne_dash '-' (hda '-' hm) rfl)
  simp only [parseHourToken, stripChars_eq_self _ hws, hcont]
  simp [ha]

/-- `sorted(set(…))` is sorted. -/
theorem sortedDedupNat_sorted (l : List ℕ) : List.Sorted (· ≤ ·) (sortedDedupNat l) :=
  List.Pairwise.sublist (List.dedup_sublist _) (List.sorted_insertionSort _ l)

/-- `sorted(set(…))` has no duplicates. -/
theorem sortedDedupNat_nodup (l : List ℕ) : (sortedDedupNat l).Nodup :=
  List.nodup_dedup _

/-- Every successful hour-range parse is sorted and duplicate-free. -/
theorem parseHourRanges_sorted (s : List Char) (hs : List ℕ)
    (h : parseHourRanges (some s) = some hs) :
    List.Sorted (· ≤ ·) hs ∧ hs.Nodup := by
  cases s with
  | nil =>
    have : hs = [] := by simpa [parseHourRanges] using h.symm
    subst this
    exact ⟨List.sorted_nil, List.nodup_nil⟩
  | cons c cs =>
    rcases hmap : (splitOnChar ',' (c :: cs)).mapM parseHourToken with _ | lists
    · rw [show parseHourRanges (some (c :: cs)) = (do
          let lists ← (splitOnChar ',' (c :: cs)).mapM parseHourToken
          pure (sortedDedupNat lists.flatten)) from rfl, hmap] at h
      exact Option.noConfusion h
    · rw [show parseHourRanges (some (c :: cs)) = (do
          let lists ← (splitOnChar ',' (c :: cs)).mapM parseHourToken
          pure (sortedDedupNat lists.flatten)) from rfl, hmap] at h
      have : sortedDedupNat lists.flatten = hs := by simpa using h
      subst this
      exact ⟨sortedDedupNat_sorted _, sortedDedupNat_nodup _⟩

/-- C10: `_parse_hour_ranges` parses `"a-b"` as the hours `a` … `b−1` (end
excluded) and a bare number as that single hour, over comma-separated
tokens, and returns the deduplicated sorted hour set; in particular
`"22-24"` denotes exactly the hours 22 and 23. -/
theorem C10_parse_hour_ranges :
    parseHourRanges (some "22-24".toList) = some [22, 23] ∧
    parseHourRanges (some "9-11,13-15,20-22".toList) = some [9, 10, 13, 14, 20, 21] ∧
    parseHourRanges (some "9,13,20".toList) = some [9, 13, 20] ∧
    parseHourRanges (some "5,5,3".toList) = some [3, 5] ∧
    parseHourRanges (some "24-22".toList) = some [] ∧
    parseHourRanges none = some [] ∧
    (∀ (a b : List Char) (x y : ℕ), digitsToNat a = some x → digitsToNat b = some y →
      parseHourToken (a ++ '-' :: b) = some (List.range' x (y - x))) ∧
    (∀ (a : List Char) (x : ℕ), digitsToNat a = some x → parseHourToken a = some [x]) ∧
    (∀ (s : List Char) (hs : List ℕ), parseHourRanges (some s) = some hs →
      List.Sorted (· ≤ ·) hs ∧ hs.Nodup) := by
  refine ⟨by decide, by decide, by decide, by decide, by decide, rfl,
    parseHourToken_range, parseHourToken_single, parseHourRanges_sorted⟩

/-- C10 witness: the range semantics at the repository's own
`always_off_hours = "22-24"` bounds, and sortedness of that parse. -/
theorem C10_parse_hour_ranges_witness :
    parseHourToken ("22".toList ++ '-' :: "24".toList) = some (List.range' 22 (24 - 22)) ∧
    (List.Sorted (· ≤ ·) [22, 23] ∧ ([22, 23] : List ℕ).Nodup) := by
  refine ⟨C10_parse_hour_ranges.2.2.2.2.2.2.1 "22".toList "24".toList 22 24
      (by decide) (by decide),
    C10_parse_hour_ranges.2.2.2.2.2.2.2.2 "22-24".toList [22, 23] (by decide)⟩

end HAConf


